import Mathlib

/-!
Verification development for the image-comments relay (src/server.js).

The source file contains two concatenated near-duplicate variants of the
same Express relay; the second variant (lines 218-453) is complete, while
the first elides two blocks with placeholder comments reading
"add check for responseData.errors here as before" and
"existing error handling".  The embedding below models the complete
variant; where the first variant is not elided it is behaviourally
identical on every path a claim touches.

Modelling conventions:
  * JavaScript values reaching the handlers are modelled by `JsValue`
    (JSON values plus `undefined`).  Numbers are modelled as integers;
    the claims only involve integer inputs.
  * The outcome of the single outbound `axios.post` is an oracle of type
    `RemoteOutcome`, following the error-shape branching of the source
    (`err.response` / `err.request` / setup failure).
  * `new Date().toISOString()` is modelled as an abstract clock string
    `ts` supplied to the handler; `Date.now()` as a natural number of
    milliseconds `nowMs`.
  * A JavaScript property access that throws a TypeError (access on a
    nullish value, or calling an array method on a non-array) aborts the
    handler body and lands in the catch block with an error that has
    neither `response` nor `request`; the source then answers
    500 with the error message as `details`.  The thrown message text is
    modelled by the constant string "TypeError".
-/

inductive JsValue where
  | null
  | undefined
  | bool (b : Bool)
  | num (n : Int)
  | str (s : String)
  | arr (elems : List JsValue)
  | obj (fields : List (String × JsValue))
  deriving Repr

mutual

/-- Boolean equality on JavaScript values (used to obtain a computable
decidable equality on `JsValue`). -/
def jsBeq : JsValue → JsValue → Bool
  | .null, .null => true
  | .undefined, .undefined => true
  | .bool a, .bool b => a == b
  | .num a, .num b => a == b
  | .str a, .str b => a == b
  | .arr as, .arr bs => jsBeqList as bs
  | .obj as, .obj bs => jsBeqFields as bs
  | _, _ => false

def jsBeqList : List JsValue → List JsValue → Bool
  | [], [] => true
  | a :: as, b :: bs => jsBeq a b && jsBeqList as bs
  | _, _ => false

def jsBeqFields : List (String × JsValue) → List (String × JsValue) → Bool
  | [], [] => true
  | (k, v) :: as, (k2, v2) :: bs => k == k2 && jsBeq v v2 && jsBeqFields as bs
  | _, _ => false

end

mutual

def jsBeq_sound : ∀ a b, jsBeq a b = true → a = b
  | .null, b => fun h => by cases b <;> simp_all [jsBeq]
  | .undefined, b => fun h => by cases b <;> simp_all [jsBeq]
  | .bool _, b => fun h => by cases b <;> simp_all [jsBeq]
  | .num _, b => fun h => by cases b <;> simp_all [jsBeq]
  | .str _, b => fun h => by cases b <;> simp_all [jsBeq]
  | .arr as, .arr bs => fun h =>
      congrArg JsValue.arr (jsBeqList_sound as bs (by simpa [jsBeq] using h))
  | .arr _, .null => fun h => by simp [jsBeq] at h
  | .arr _, .undefined => fun h => by simp [jsBeq] at h
  | .arr _, .bool _ => fun h => by simp [jsBeq] at h
  | .arr _, .num _ => fun h => by simp [jsBeq] at h
  | .arr _, .str _ => fun h => by simp [jsBeq] at h
  | .arr _, .obj _ => fun h => by simp [jsBeq] at h
  | .obj as, .obj bs => fun h =>
      congrArg JsValue.obj (jsBeqFields_sound as bs (by simpa [jsBeq] using h))
  | .obj _, .null => fun h => by simp [jsBeq] at h
  | .obj _, .undefined => fun h => by simp [jsBeq] at h
  | .obj _, .bool _ => fun h => by simp [jsBeq] at h
  | .obj _, .num _ => fun h => by simp [jsBeq] at h
  | .obj _, .str _ => fun h => by simp [jsBeq] at h
  | .obj _, .arr _ => fun h => by simp [jsBeq] at h

def jsBeqList_sound : ∀ as bs, jsBeqList as bs = true → as = bs
  | [], [] => fun _ => rfl
  | [], _ :: _ => fun h => by simp [jsBeqList] at h
  | _ :: _, [] => fun h => by simp [jsBeqList] at h
  | a :: as, b :: bs => fun h => by
      have h2 : jsBeq a b = true ∧ jsBeqList as bs = true := by
        simpa [jsBeqList, Bool.and_eq_true] using h
      rw [jsBeq_sound a b h2.1, jsBeqList_sound as bs h2.2]

def jsBeqFields_sound : ∀ as bs, jsBeqFields as bs = true → as = bs
  | [], [] => fun _ => rfl
  | [], _ :: _ => fun h => by simp [jsBeqFields] at h
  | _ :: _, [] => fun h => by simp [jsBeqFields] at h
  | (k, v) :: as, (k2, v2) :: bs => fun h => by
      have h2 : (k == k2) = true ∧ jsBeq v v2 = true ∧ jsBeqFields as bs = true := by
        simpa [jsBeqFields, Bool.and_eq_true, and_assoc] using h
      have hk : k = k2 := by simpa using h2.1
      rw [hk, jsBeq_sound v v2 h2.2.1, jsBeqFields_sound as bs h2.2.2]

end

mutual

def jsBeq_refl : ∀ a, jsBeq a a = true
  | .null => rfl
  | .undefined => rfl
  | .bool b => by simp [jsBeq]
  | .num n => by simp [jsBeq]
  | .str s => by simp [jsBeq]
  | .arr as => by simpa [jsBeq] using jsBeqList_refl as
  | .obj as => by simpa [jsBeq] using jsBeqFields_refl as

def jsBeqList_refl : ∀ as, jsBeqList as as = true
  | [] => rfl
  | a :: as => by
      simp only [jsBeqList, Bool.and_eq_true]
      exact ⟨jsBeq_refl a, jsBeqList_refl as⟩

def jsBeqFields_refl : ∀ as, jsBeqFields as as = true
  | [] => rfl
  | (k, v) :: as => by
      simp only [jsBeqFields, Bool.and_eq_true]
      exact ⟨⟨by simp, jsBeq_refl v⟩, jsBeqFields_refl as⟩

end

instance : DecidableEq JsValue := fun a b =>
  if h : jsBeq a b = true then isTrue (jsBeq_sound a b h)
  else isFalse (fun he => h (he ▸ jsBeq_refl a))

namespace JsValue

/-- JavaScript truthiness of a value (model; NaN and non-integer numbers
are out of scope of the claims). -/
def truthy : JsValue → Bool
  | .null => false
  | .undefined => false
  | .bool b => b
  | .num n => n != 0
  | .str s => !s.isEmpty
  | .arr _ => true
  | .obj _ => true

def isNullish : JsValue → Bool
  | .null => true
  | .undefined => true
  | _ => false

def isNull : JsValue → Bool
  | .null => true
  | _ => false

/-- Plain property access `v.k` on a non-nullish value: a lookup on an
object, `undefined` on any other (primitive) value.  Access on a nullish
value throws in JavaScript; callers model that case separately. -/
def getField : JsValue → String → JsValue
  | .obj fs, k =>
    match fs.find? (fun p => p.1 == k) with
    | some p => p.2
    | none => .undefined
  | _, _ => .undefined

/-- Optional-chaining access `v?.k1?.k2...`: short-circuits to
`undefined` on a nullish intermediate value. -/
def optChain (v : JsValue) : List String → JsValue
  | [] => v
  | k :: ks => if v.isNullish then .undefined else (v.getField k).optChain ks

def hasKey (v : JsValue) (k : String) : Bool :=
  match v with
  | .obj fs => fs.any (fun p => p.1 == k)
  | _ => false

end JsValue

/-- The decimal digit character for d < 10, as produced by JavaScript
number-to-string conversion. -/
def decDigit (d : Nat) : Char := Char.ofNat (48 + d)

/-- Decimal digit list (most significant first) of a natural number,
computed with explicit fuel so that the definition is structural; the
fuel is always sufficient when it exceeds the number. -/
def natDecAux : Nat → Nat → List Char
  | 0, _ => []
  | fuel + 1, n =>
    if n < 10 then [decDigit n]
    else natDecAux fuel (n / 10) ++ [decDigit (n % 10)]

/-- Decimal rendering of a natural number, as produced by JavaScript
template-literal coercion of a nonnegative integer. -/
def natDec (n : Nat) : String := String.mk (natDecAux (n + 1) n)

/-- Decimal rendering of an integer (JavaScript string coercion of an
integral number). -/
def intDec (n : Int) : String :=
  if n < 0 then "-" ++ natDec n.natAbs else natDec n.natAbs

mutual

/-- JavaScript string coercion as applied by template literals and
`.toString()`: identity on strings, decimal on numbers, "[object Object]"
on plain objects, comma-joined element coercion on arrays (with nullish
elements rendered as the empty string). -/
def JsValue.jsToString : JsValue → String
  | .null => "null"
  | .undefined => "undefined"
  | .bool b => cond b "true" "false"
  | .num n => intDec n
  | .str s => s
  | .arr l => String.intercalate "," (jsToStringList l)
  | .obj _ => "[object Object]"

def jsToStringList : List JsValue → List String
  | [] => []
  | v :: vs => (if v.isNullish then "" else v.jsToString) :: jsToStringList vs

end

example : (JsValue.num 42).jsToString = "42" := by decide
example : (JsValue.arr [.num 1, .null, .str "x"]).jsToString = "1,,x" := by decide
example : natDec 1700000000000 = "1700000000000" := by decide

/-! ## The relay embedding -/

/-- An HTTP response produced by the relay: the status set via
`res.status(...)` (200 when `res.json` is called without a status) and
the JSON body passed to `res.json`. -/
structure HttpResponse where
  status : Nat
  body : JsValue
  deriving Repr, DecidableEq

/-- Which of the two fixed GraphQL documents an outbound request
carries: the `metaobjectCreate` mutation (save) or the
`GetMetaobjectsByImageId` query (get).  The documents themselves are
fixed string literals in the source and carry no request-dependent
data; all request-dependent data travels in `vars`. -/
inductive RemoteOp where
  | createComment
  | fetchComments
  deriving Repr, DecidableEq

/-- One outbound `axios.post` to the GraphQL endpoint: the fixed
document tag and the `variables` object sent with it. -/
structure RemoteCall where
  op : RemoteOp
  vars : JsValue
  deriving Repr, DecidableEq

/-- Outcome of the single outbound call, following the error-shape
branching of the catch blocks in the source: `success d` is a fulfilled
promise with `response.data = d`; `remoteError st d` is a rejection
with `err.response` present (`status = st`, `data = d`); `noResponse`
is a rejection with `err.request` but no response; `setupError m` is a
rejection with neither (`err.message = m`). -/
inductive RemoteOutcome where
  | success (d : JsValue)
  | remoteError (st : Nat) (d : JsValue)
  | noResponse
  | setupError (m : String)
  deriving Repr, DecidableEq

/-- Response produced when a TypeError thrown inside the try block lands
in the catch block (neither `err.response` nor `err.request` present);
the thrown message text is modelled by the constant "TypeError". -/
def throwResp : HttpResponse :=
  ⟨500, .obj [("error", .str "Internal Server Error."), ("details", .str "TypeError")]⟩

/-- The single-quote character, written via its code point. -/
def quoteChar : Char := Char.ofNat 39

/-- The handle generated for a submission:
the template literal comment-dollarbrace image_id dollarbrace-dash-dollarbrace Date.now() dollarbrace,
i.e. "comment-" ++ String(image_id) ++ "-" ++ String(Date.now()). -/
def mkHandle (image_id : JsValue) (nowMs : Nat) : String :=
  "comment-" ++ image_id.jsToString ++ "-" ++ natDec nowMs

/-- The `variables` object of the save mutation (src/server.js lines
283-300): a `metaobject` with fixed type "image_comment", the generated
handle, the three-field list, and the fixed ACTIVE publication
capability. -/
def saveVariables (image_id comment : JsValue) (ts : String) (handle : String) : JsValue :=
  .obj [("metaobject", .obj [
    ("type", .str "image_comment"),
    ("handle", .str handle),
    ("fields", .arr [
      .obj [("key", .str "image_id"), ("value", .str image_id.jsToString)],
      .obj [("key", .str "comment_text"), ("value", comment)],
      .obj [("key", .str "timestamp"), ("value", .str ts)]]),
    ("capabilities", .obj [("publishable", .obj [("status", .str "ACTIVE")])])])]

/-- Models `userErrors && userErrors.length > 0` for a value already
known truthy: `.length` of an array or string, the `length` property of
an object when numeric, `undefined` (hence a false comparison)
otherwise. -/
def lengthGtZero : JsValue → Bool
  | .arr l => decide (0 < l.length)
  | .str s => decide (0 < s.length)
  | .obj fs =>
    match (JsValue.obj fs).getField "length" with
    | .num n => decide (0 < n)
    | _ => false
  | _ => false

/-- Processing of a fulfilled save response (src/server.js lines
307-335): userErrors check, top-level errors check, metaobject presence
check, then the success envelope.  When `responseData` is nullish the
plain access `responseData.errors` throws. -/
def saveSuccess (d : JsValue) : HttpResponse :=
  let ue := d.optChain ["data", "metaobjectCreate", "userErrors"]
  if ue.truthy && lengthGtZero ue then
    ⟨400, .obj [("error", .str "Failed to save comment due to validation errors."),
                ("details", ue)]⟩
  else if d.isNullish then throwResp
  else
    let errs := d.getField "errors"
    if errs.truthy then
      ⟨400, .obj [("error", .str "Failed to save comment due to GraphQL errors."),
                  ("details", errs)]⟩
    else if !(d.optChain ["data", "metaobjectCreate", "metaobject"]).truthy then
      ⟨500, .obj [("error", .str "Internal Server Error: Unexpected response structure after saving comment.")]⟩
    else
      ⟨200, .obj [("success", .bool true),
                  ("data", (d.getField "data").getField "metaobjectCreate")]⟩

/-- The POST /apps/comments/save handler (src/server.js lines 252-360).
Arguments: the parsed JSON request body, the clock string produced by
`new Date().toISOString()`, the milliseconds produced by `Date.now()`,
and the outcome of the outbound call.  Returns the list of outbound
remote calls issued and the HTTP response sent. -/
def saveHandler (body : JsValue) (ts : String) (nowMs : Nat)
    (remote : RemoteOutcome) : List RemoteCall × HttpResponse :=
  let image_id := body.getField "image_id"
  let comment := body.getField "comment"
  if !image_id.truthy || !comment.truthy then
    ([], ⟨400, .obj [("error", .str "Missing image_id or comment in request body.")]⟩)
  else
    let call : RemoteCall :=
      ⟨.createComment, saveVariables image_id comment ts (mkHandle image_id nowMs)⟩
    ([call],
      match remote with
      | .success d => saveSuccess d
      | .remoteError st d =>
        ⟨if st = 0 then 500 else st,
         .obj [("error", .str "Error communicating with Shopify API while saving."),
               ("details", d)]⟩
      | .noResponse =>
        ⟨500, .obj [("error", .str "Internal Server Error: No response from Shopify API.")]⟩
      | .setupError m =>
        ⟨500, .obj [("error", .str "Internal Server Error."), ("details", .str m)]⟩)

/-- Checks whether the character list `sub` occurs at the start of `l`. -/
def charListStartCheck : List Char → List Char → Bool
  | [], _ => true
  | _ :: _, [] => false
  | a :: as, b :: bs => a == b && charListStartCheck as bs

/-- Checks whether the character list `sub` occurs contiguously inside
`l` (JavaScript `String.prototype.includes`). -/
def charListSubstrCheck (sub : List Char) : List Char → Bool
  | [] => sub.isEmpty
  | b :: bs => charListStartCheck sub (b :: bs) || charListSubstrCheck sub bs

/-- JavaScript `m.includes(sub)` on strings. -/
def strIncludes (m sub : String) : Bool := charListSubstrCheck sub.data m.data

/-- Models `errors.some(e => e.message?.includes('filter is not supported'))`
(src/server.js line 405).  `none` models a TypeError: a nullish element
(whose `.message` access throws) or a `message` that is truthy but has
no `includes` method.  An array-valued `message` does have `includes`
(membership test). -/
def someFilterMsg : List JsValue → Option Bool
  | [] => some false
  | e :: rest =>
    if e.isNullish then none
    else
      match e.getField "message" with
      | .str m =>
        if strIncludes m "filter is not supported" then some true else someFilterMsg rest
      | .arr l =>
        if l.contains (.str "filter is not supported") then some true else someFilterMsg rest
      | .null => someFilterMsg rest
      | .undefined => someFilterMsg rest
      | _ => none

/-- Models `node.fields.find(f => f.key === "comment_text")` over the
field list: `none` is a TypeError on a nullish element, `some none` not
found, `some (some f)` the first field object whose `key` is the string
"comment_text". -/
def fieldsFindComment : List JsValue → Option (Option JsValue)
  | [] => some none
  | f :: fs =>
    if f.isNullish then none
    else
      match f.getField "key" with
      | .str k => if k == "comment_text" then some (some f) else fieldsFindComment fs
      | _ => fieldsFindComment fs

/-- Processing of one node in the GET mapping (src/server.js lines
420-423): `node.fields.find(...)` then
`commentField ? commentField.value : null`.  `none` models a TypeError
(nullish node, or a `fields` value that is not an array). -/
def mapNode (node : JsValue) : Option JsValue :=
  if node.isNullish then none
  else
    match node.getField "fields" with
    | .arr l =>
      match fieldsFindComment l with
      | none => none
      | some none => some .null
      | some (some f) => some (f.getField "value")
    | _ => none

/-- `nodes.map(node => ...)` with TypeError propagation. -/
def mapNodesComments : List JsValue → Option (List JsValue)
  | [] => some []
  | n :: ns =>
    match mapNode n, mapNodesComments ns with
    | some c, some cs => some (c :: cs)
    | _, _ => none

/-- The full GET mapping (src/server.js lines 420-424): map each node to
its comment value (or null), then `.filter(comment => comment !== null)`. -/
def commentsOfNodes (l : List JsValue) : Option (List JsValue) :=
  (mapNodesComments l).map (fun cs => cs.filter (fun c => !c.isNull))

/-- Processing of a fulfilled get response (src/server.js lines
399-427): top-level errors check (with the filter-specific sub-branch),
then the nodes default and the comment mapping.  When `responseData` is
nullish the plain access `responseData.errors` throws; `.some` on a
truthy non-array `errors` throws; `.map` on a truthy non-array `nodes`
throws. -/
def getSuccess (d : JsValue) : HttpResponse :=
  if d.isNullish then throwResp
  else
    let errs := d.getField "errors"
    if errs.truthy then
      match errs with
      | .arr es =>
        match someFilterMsg es with
        | none => throwResp
        | some true =>
          ⟨400, .obj [("error", .str "Failed to get comments: Filtering not enabled for image_id."),
                      ("details", errs)]⟩
        | some false =>
          ⟨400, .obj [("error", .str "Failed to get comments due to GraphQL errors."),
                      ("details", errs)]⟩
      | _ => throwResp
    else
      let nodes := d.optChain ["data", "metaobjects", "nodes"]
      match (if nodes.truthy then nodes else .arr []) with
      | .arr l =>
        match commentsOfNodes l with
        | some cs => ⟨200, .obj [("comments", .arr cs)]⟩
        | none => throwResp
      | _ => throwResp

/-- The filter expression sent as the `filterQuery` variable
(src/server.js line 391): the template literal
image_id:squote-dollarbrace image_id dollarbrace-squote, i.e. the
caller-supplied value coerced to a string and spliced verbatim between
two single quotes with no escaping. -/
def filterQueryOf (image_id : JsValue) : String :=
  "image_id:" ++ String.mk [quoteChar] ++ image_id.jsToString ++ String.mk [quoteChar]

/-- The GET /apps/comments/get handler (src/server.js lines 366-449).
Arguments: the `image_id` query parameter as a JavaScript value
(`undefined` when absent) and the outcome of the outbound call. -/
def getHandler (image_id : JsValue) (remote : RemoteOutcome) :
    List RemoteCall × HttpResponse :=
  if !image_id.truthy then
    ([], ⟨400, .obj [("error", .str "Missing image_id query parameter.")]⟩)
  else
    let call : RemoteCall :=
      ⟨.fetchComments, .obj [("filterQuery", .str (filterQueryOf image_id))]⟩
    ([call],
      match remote with
      | .success d => getSuccess d
      | .remoteError st d =>
        ⟨if st = 0 then 500 else st,
         .obj [("error", .str "Error communicating with Shopify API while fetching."),
               ("details", d)]⟩
      | .noResponse =>
        ⟨500, .obj [("error", .str "Internal Server Error: No response from Shopify API.")]⟩
      | .setupError m =>
        ⟨500, .obj [("error", .str "Internal Server Error."), ("details", .str m)]⟩)

/-! ## Spec-side definitions used to state the claims -/

/-- Whether a field object has key "comment_text" (the predicate of the
find in the GET mapping, read off the claim wording: a field with key
comment_text). -/
def isCommentKeyField (f : JsValue) : Bool :=
  match f.getField "key" with
  | .str k => k == "comment_text"
  | _ => false

/-- The claim C2 count M: the number of returned records that contain a
field with key comment_text. -/
def countCommentRecords (nodes : List JsValue) : Nat :=
  (nodes.filter (fun node =>
    match node.getField "fields" with
    | .arr l => l.any isCommentKeyField
    | _ => false)).length

/-- A remote field object as the GraphQL selection produces it: an
object whose key is a string and whose value entry is present (it may be
null). -/
def wellFormedField (f : JsValue) : Bool :=
  match f with
  | .obj _ =>
    (match f.getField "key" with
     | .str _ => true
     | _ => false) &&
    (match f.getField "value" with
     | .undefined => false
     | _ => true)
  | _ => false

/-- A remote record node as the GraphQL selection produces it: its
fields entry is an array of well-formed field objects. -/
def wellFormedNode (node : JsValue) : Bool :=
  match node.getField "fields" with
  | .arr l => l.all wellFormedField
  | _ => false

/-- The amended C2 contribution of a single record, stated from the
amended claim wording: the value of the first field whose key is
comment_text, included exactly when present and not null. -/
def specNodeValue (node : JsValue) : Option JsValue :=
  match node.getField "fields" with
  | .arr l =>
    match l.find? isCommentKeyField with
    | some f =>
      if (f.getField "value").isNull then none else some (f.getField "value")
    | none => none
  | _ => none

/-- The amended C2 result: one entry per record whose first comment_text
field carries a non-null value, in the order the records were
returned. -/
def specComments (nodes : List JsValue) : List JsValue :=
  nodes.filterMap specNodeValue

/-- Number of single-quote characters in a string (used to state that an
unescaped quote in the input changes the shape of the filter
expression). -/
def quoteCount (s : String) : Nat := s.data.count quoteChar

/-- The maximal run of characters other than the dash at the end of a
string, reversed (used to read the `Date.now()` suffix back off a
generated handle). -/
def lastSeg (s : String) : List Char :=
  s.data.reverse.takeWhile (fun c => c != '-')

/-- Value of a most-significant-first decimal digit list (left inverse
of `natDecAux`). -/
def decVal (l : List Char) : Nat :=
  l.foldl (fun a c => 10 * a + (c.toNat - 48)) 0

/-! ## Helper lemmas -/

theorem decDigit_ne_dash : ∀ d, d < 10 → decDigit d ≠ '-' := by decide

theorem decDigit_toNat : ∀ d, d < 10 → (decDigit d).toNat - 48 = d := by decide

theorem natDecAux_ne_dash : ∀ fuel n c, c ∈ natDecAux fuel n → c ≠ '-' := by
  intro fuel
  induction fuel with
  | zero => intro n c hc; simp [natDecAux] at hc
  | succ fuel ih =>
    intro n c hc
    by_cases h : n < 10
    · simp [natDecAux, h] at hc
      subst hc
      exact decDigit_ne_dash n h
    · simp [natDecAux, h] at hc
      rcases hc with hc | hc
      · exact ih _ _ hc
      · subst hc
        exact decDigit_ne_dash _ (Nat.mod_lt _ (by omega))

theorem decVal_append_digit (l : List Char) (c : Char) :
    decVal (l ++ [c]) = 10 * decVal l + (c.toNat - 48) := by
  simp [decVal, List.foldl_append]

theorem decVal_natDecAux : ∀ fuel n, n < fuel → decVal (natDecAux fuel n) = n := by
  intro fuel
  induction fuel with
  | zero => intro n h; omega
  | succ fuel ih =>
    intro n h
    by_cases h10 : n < 10
    · have := decDigit_toNat n h10
      simp [natDecAux, h10, decVal]
      omega
    · have hlt : n / 10 < fuel := by
        have := Nat.div_lt_self (by omega : 0 < n) (by omega : 1 < 10)
        omega
      have hmod := decDigit_toNat (n % 10) (Nat.mod_lt _ (by omega))
      simp [natDecAux, h10, decVal_append_digit, ih _ hlt]
      omega

theorem natDec_inj {n1 n2 : Nat} (h : natDec n1 = natDec n2) : n1 = n2 := by
  have hd : natDecAux (n1 + 1) n1 = natDecAux (n2 + 1) n2 := congrArg String.data h
  have h2 := congrArg decVal hd
  rwa [decVal_natDecAux _ _ (by omega), decVal_natDecAux _ _ (by omega)] at h2

theorem takeWhile_append_cons (p : Char → Bool) :
    ∀ (l : List Char) (x : Char) (r : List Char),
      (∀ a ∈ l, p a = true) → p x = false → (l ++ x :: r).takeWhile p = l := by
  intro l
  induction l with
  | nil => intro x r _ hx; simp [List.takeWhile_cons, hx]
  | cons a l ih =>
    intro x r hl hx
    have ha : p a = true := hl a (by simp)
    simp [List.takeWhile_cons, ha, ih x r (fun b hb => hl b (by simp [hb])) hx]

theorem lastSeg_append_natDec (pre : String) (n : Nat) :
    lastSeg (pre ++ "-" ++ natDec n) = (natDecAux (n + 1) n).reverse := by
  have hrev : (pre ++ "-" ++ natDec n).data.reverse
      = (natDecAux (n + 1) n).reverse ++ '-' :: pre.data.reverse := by
    simp [String.data_append, natDec]
  rw [lastSeg, hrev]
  refine takeWhile_append_cons _ _ _ _ ?_ (by simp)
  intro a ha
  have hmem : a ∈ natDecAux (n + 1) n := List.mem_reverse.mp ha
  simpa using natDecAux_ne_dash _ _ _ hmem

theorem lastSeg_mkHandle (v : JsValue) (n : Nat) :
    lastSeg (mkHandle v n) = (natDecAux (n + 1) n).reverse :=
  lastSeg_append_natDec ("comment-" ++ v.jsToString) n

theorem mkHandle_now_inj {v1 v2 : JsValue} {n1 n2 : Nat}
    (h : mkHandle v1 n1 = mkHandle v2 n2) : n1 = n2 := by
  have h1 := lastSeg_mkHandle v1 n1
  have h2 := lastSeg_mkHandle v2 n2
  rw [h, h2] at h1
  have hd : natDecAux (n1 + 1) n1 = natDecAux (n2 + 1) n2 := by
    simpa using congrArg List.reverse h1.symm
  have h3 := congrArg decVal hd
  rwa [decVal_natDecAux _ _ (by omega), decVal_natDecAux _ _ (by omega)] at h3

theorem quoteCount_append (a b : String) :
    quoteCount (a ++ b) = quoteCount a + quoteCount b := by
  simp [quoteCount, String.data_append, List.count_append]

theorem filterQueryOf_quoteCount (s : String) :
    quoteCount (filterQueryOf (.str s)) = quoteCount s + 2 := by
  have h1 : quoteCount "image_id:" = 0 := by decide
  have h2 : quoteCount (String.mk [quoteChar]) = 1 := by decide
  have h3 : (JsValue.str s).jsToString = s := rfl
  simp [filterQueryOf, quoteCount_append, h1, h2, h3]
  omega

theorem fieldsFindComment_wf : ∀ l : List JsValue,
    (∀ f ∈ l, wellFormedField f = true) →
    fieldsFindComment l = some (l.find? isCommentKeyField) := by
  intro l
  induction l with
  | nil => intro _; rfl
  | cons f fs ih =>
    intro hw
    have hf := hw f (by simp)
    have hfs : ∀ g ∈ fs, wellFormedField g = true := fun g hg => hw g (by simp [hg])
    cases f with
    | obj fl =>
      cases hkey : (JsValue.obj fl).getField "key" with
      | str k =>
        by_cases hk : (k == "comment_text") = true
        · simp [fieldsFindComment, JsValue.isNullish, hkey, hk,
                List.find?_cons, isCommentKeyField]
        · simp [fieldsFindComment, JsValue.isNullish, hkey, hk,
                List.find?_cons, isCommentKeyField, ih hfs]
      | null => simp [wellFormedField, hkey] at hf
      | undefined => simp [wellFormedField, hkey] at hf
      | bool b => simp [wellFormedField, hkey] at hf
      | num n => simp [wellFormedField, hkey] at hf
      | arr l2 => simp [wellFormedField, hkey] at hf
      | obj l2 => simp [wellFormedField, hkey] at hf
    | null => simp [wellFormedField] at hf
    | undefined => simp [wellFormedField] at hf
    | bool b => simp [wellFormedField] at hf
    | num n => simp [wellFormedField] at hf
    | str s => simp [wellFormedField] at hf
    | arr l2 => simp [wellFormedField] at hf

theorem mapNode_wf : ∀ node : JsValue, wellFormedNode node = true →
    ∃ l, node.getField "fields" = .arr l ∧ (∀ f ∈ l, wellFormedField f = true) ∧
      mapNode node = some (match l.find? isCommentKeyField with
                           | some f => f.getField "value"
                           | none => JsValue.null) := by
  intro node hw
  cases hf : node.getField "fields" with
  | arr l =>
    have hwf : ∀ f ∈ l, wellFormedField f = true := by
      have h2 := hw
      simp [wellFormedNode, hf, List.all_eq_true] at h2
      exact h2
    have hnn : node.isNullish = false := by
      cases node <;> simp_all [JsValue.getField, JsValue.isNullish]
    refine ⟨l, rfl, hwf, ?_⟩
    cases hfind : l.find? isCommentKeyField with
    | none => simp [mapNode, hnn, hf, fieldsFindComment_wf l hwf, hfind]
    | some f => simp [mapNode, hnn, hf, fieldsFindComment_wf l hwf, hfind]
  | null => simp [wellFormedNode, hf] at hw
  | undefined => simp [wellFormedNode, hf] at hw
  | bool b => simp [wellFormedNode, hf] at hw
  | num n => simp [wellFormedNode, hf] at hw
  | str s => simp [wellFormedNode, hf] at hw
  | obj l2 => simp [wellFormedNode, hf] at hw


theorem specNodeValue_of_find_none {node : JsValue} {l : List JsValue}
    (hf : node.getField "fields" = .arr l)
    (hfind : l.find? isCommentKeyField = none) :
    specNodeValue node = none := by
  simp [specNodeValue, hf, hfind]

theorem specNodeValue_of_find_some {node f : JsValue} {l : List JsValue}
    (hf : node.getField "fields" = .arr l)
    (hfind : l.find? isCommentKeyField = some f) :
    specNodeValue node
      = if (f.getField "value").isNull then none else some (f.getField "value") := by
  simp [specNodeValue, hf, hfind]

theorem filter_notNull_cons_null (cs : List JsValue) :
    (JsValue.null :: cs).filter (fun c => !c.isNull)
      = cs.filter (fun c => !c.isNull) := by
  simp [List.filter_cons, JsValue.isNull]

theorem filter_notNull_cons_keep (v : JsValue) (hv : v.isNull = false)
    (cs : List JsValue) :
    (v :: cs).filter (fun c => !c.isNull)
      = v :: cs.filter (fun c => !c.isNull) := by
  simp [List.filter_cons, hv]

theorem specComments_cons_none {node : JsValue} (ns : List JsValue)
    (h : specNodeValue node = none) :
    specComments (node :: ns) = specComments ns := by
  simp [specComments, List.filterMap_cons, h]

theorem specComments_cons_some {node v : JsValue} (ns : List JsValue)
    (h : specNodeValue node = some v) :
    specComments (node :: ns) = v :: specComments ns := by
  simp [specComments, List.filterMap_cons, h]

theorem mapNodesComments_wf : ∀ nodes : List JsValue,
    (∀ n ∈ nodes, wellFormedNode n = true) →
    ∃ cs, mapNodesComments nodes = some cs ∧
      cs.filter (fun c => !c.isNull) = specComments nodes := by
  intro nodes
  induction nodes with
  | nil => intro _; exact ⟨[], rfl, rfl⟩
  | cons node ns ih =>
    intro hw
    obtain ⟨cs, hcs, hfil⟩ := ih (fun n hn => hw n (by simp [hn]))
    obtain ⟨l, hf, hwf, hmap⟩ := mapNode_wf node (hw node (by simp))
    cases hfind : l.find? isCommentKeyField with
    | none =>
      refine ⟨JsValue.null :: cs, ?_, ?_⟩
      · simp only [mapNodesComments, hmap, hfind, hcs]
      · rw [filter_notNull_cons_null, hfil,
            specComments_cons_none ns (specNodeValue_of_find_none hf hfind)]
    | some f =>
      by_cases hnull : (f.getField "value").isNull = true
      · have hsv : specNodeValue node = none := by
          rw [specNodeValue_of_find_some hf hfind]; simp [hnull]
        refine ⟨f.getField "value" :: cs, ?_, ?_⟩
        · simp only [mapNodesComments, hmap, hfind, hcs]
        · rw [show f.getField "value" = JsValue.null from
                by cases hv : f.getField "value" <;> simp_all [JsValue.isNull],
              filter_notNull_cons_null, hfil, specComments_cons_none ns hsv]
      · have hnull2 : (f.getField "value").isNull = false := by
          simpa using hnull
        have hsv : specNodeValue node = some (f.getField "value") := by
          rw [specNodeValue_of_find_some hf hfind]; simp [hnull2]
        refine ⟨f.getField "value" :: cs, ?_, ?_⟩
        · simp only [mapNodesComments, hmap, hfind, hcs]
        · rw [filter_notNull_cons_keep _ hnull2, hfil, specComments_cons_some ns hsv]

theorem commentsOfNodes_wf (nodes : List JsValue)
    (hw : ∀ n ∈ nodes, wellFormedNode n = true) :
    commentsOfNodes nodes = some (specComments nodes) := by
  obtain ⟨cs, hcs, hfil⟩ := mapNodesComments_wf nodes hw
  simp [commentsOfNodes, hcs, hfil]

theorem specNodeValue_not_null {n c : JsValue} (h : specNodeValue n = some c) :
    c.isNull = false := by
  cases h1 : n.getField "fields" with
  | arr l =>
    cases h2 : l.find? isCommentKeyField with
    | none => rw [specNodeValue_of_find_none h1 h2] at h; simp at h
    | some f =>
      rw [specNodeValue_of_find_some h1 h2] at h
      by_cases h3 : (f.getField "value").isNull = true
      · simp [h3] at h
      · have h4 : (f.getField "value").isNull = false := by simpa using h3
        rw [if_neg (by simp [h4])] at h
        cases h
        exact h4
  | null => simp [specNodeValue, h1] at h
  | undefined => simp [specNodeValue, h1] at h
  | bool b => simp [specNodeValue, h1] at h
  | num m => simp [specNodeValue, h1] at h
  | str s => simp [specNodeValue, h1] at h
  | obj l2 => simp [specNodeValue, h1] at h

theorem specComments_not_null (nodes : List JsValue) :
    ∀ c ∈ specComments nodes, c.isNull = false := by
  intro c hc
  simp only [specComments, List.mem_filterMap] at hc
  obtain ⟨n, _, hfn⟩ := hc
  exact specNodeValue_not_null hfn

/-! ## Claim theorems -/

/-- C1: for every submit request with non-empty (truthy) image_id and
comment, exactly one creation request is sent to the remote store, and
its field list contains exactly three fields: image_id (the input
coerced to a string), comment_text (the input comment verbatim, with no
sanitization and no length cap), and timestamp (the ISO-8601 clock
string generated by the relay at request time; `new Date().toISOString()`
is modelled as the clock input `ts`, whose ISO-8601 well-formedness is
the runtime library contract). -/
theorem c1_save_one_call_exact_fields
    (body : JsValue) (ts : String) (nowMs : Nat) (remote : RemoteOutcome)
    (h1 : (body.getField "image_id").truthy = true)
    (h2 : (body.getField "comment").truthy = true) :
    ∃ c : RemoteCall,
      (saveHandler body ts nowMs remote).1 = [c] ∧
      c.op = .createComment ∧
      c.vars.optChain ["metaobject", "fields"]
        = .arr [
            .obj [("key", .str "image_id"),
                  ("value", .str (body.getField "image_id").jsToString)],
            .obj [("key", .str "comment_text"),
                  ("value", body.getField "comment")],
            .obj [("key", .str "timestamp"), ("value", .str ts)]] := by
  refine ⟨⟨.createComment,
    saveVariables (body.getField "image_id") (body.getField "comment") ts
      (mkHandle (body.getField "image_id") nowMs)⟩, ?_, rfl, rfl⟩
  simp [saveHandler, h1, h2]

theorem c1_save_one_call_exact_fields_witness :
    ∃ c : RemoteCall,
      (saveHandler (.obj [("image_id", .str "42"), ("comment", .str "Nice photo!")])
        "2026-01-01T00:00:00.000Z" 1700000000000 .noResponse).1 = [c] ∧
      c.op = .createComment ∧
      c.vars.optChain ["metaobject", "fields"]
        = .arr [
            .obj [("key", .str "image_id"), ("value", .str "42")],
            .obj [("key", .str "comment_text"), ("value", .str "Nice photo!")],
            .obj [("key", .str "timestamp"),
                  ("value", .str "2026-01-01T00:00:00.000Z")]] :=
  c1_save_one_call_exact_fields _ _ _ _ (by decide) (by decide)

/-- C3: a submit request whose image_id or comment is missing (absent,
hence `undefined`, or empty, both falsy) is answered 400 with no
outbound remote call, and likewise a retrieval request whose image_id
query parameter is missing or empty. -/
theorem c3_missing_input_no_remote_call
    (body idv : JsValue) (ts : String) (nowMs : Nat) (remote : RemoteOutcome) :
    (((body.getField "image_id").truthy = false ∨
      (body.getField "comment").truthy = false) →
      saveHandler body ts nowMs remote
        = ([], ⟨400, .obj [("error",
            .str "Missing image_id or comment in request body.")]⟩)) ∧
    (idv.truthy = false →
      getHandler idv remote
        = ([], ⟨400, .obj [("error",
            .str "Missing image_id query parameter.")]⟩)) := by
  constructor
  · intro h
    rcases h with h | h <;> simp [saveHandler, h]
  · intro h
    simp [getHandler, h]

theorem c3_missing_input_no_remote_call_witness :
    (saveHandler (.obj [("comment", .str "hi")]) "t0" 5 .noResponse
      = ([], ⟨400, .obj [("error",
          .str "Missing image_id or comment in request body.")]⟩)) ∧
    (getHandler .undefined .noResponse
      = ([], ⟨400, .obj [("error",
          .str "Missing image_id query parameter.")]⟩)) :=
  ⟨(c3_missing_input_no_remote_call (.obj [("comment", .str "hi")]) .undefined
      "t0" 5 .noResponse).1 (Or.inl (by decide)),
   (c3_missing_input_no_remote_call (.obj [("comment", .str "hi")]) .undefined
      "t0" 5 .noResponse).2 (by decide)⟩

/-- C10: submit validation is truthiness-based, not presence-based: an
image_id that is the number 0 or the boolean false, or an empty-string
comment, is rejected as missing with a 400, while any truthy value of
any type is accepted for either field, the accepted request issuing one
remote call whose image_id field is the input coerced with toString. -/
theorem c10_truthiness_validation
    (v w : JsValue) (ts : String) (nowMs : Nat) (remote : RemoteOutcome) :
    (saveHandler (.obj [("image_id", .num 0), ("comment", .str "ok")]) ts nowMs remote
      = ([], ⟨400, .obj [("error",
          .str "Missing image_id or comment in request body.")]⟩)) ∧
    (saveHandler (.obj [("image_id", .bool false), ("comment", .str "ok")]) ts nowMs remote
      = ([], ⟨400, .obj [("error",
          .str "Missing image_id or comment in request body.")]⟩)) ∧
    (saveHandler (.obj [("image_id", .str "42"), ("comment", .str "")]) ts nowMs remote
      = ([], ⟨400, .obj [("error",
          .str "Missing image_id or comment in request body.")]⟩)) ∧
    (v.truthy = true → w.truthy = true →
      ∃ c : RemoteCall,
        (saveHandler (.obj [("image_id", v), ("comment", w)]) ts nowMs remote).1 = [c] ∧
        c.vars.optChain ["metaobject", "fields"]
          = .arr [
              .obj [("key", .str "image_id"), ("value", .str v.jsToString)],
              .obj [("key", .str "comment_text"), ("value", w)],
              .obj [("key", .str "timestamp"), ("value", .str ts)]]) := by
  have hz : ((JsValue.obj [("image_id", .num 0), ("comment", .str "ok")]).getField
      "image_id").truthy = false := rfl
  have hb : ((JsValue.obj [("image_id", .bool false), ("comment", .str "ok")]).getField
      "image_id").truthy = false := rfl
  have he : ((JsValue.obj [("image_id", .str "42"), ("comment", .str "")]).getField
      "comment").truthy = false := rfl
  refine ⟨by simp [saveHandler, hz], by simp [saveHandler, hb],
    by simp [saveHandler, he], ?_⟩
  intro hv hw
  have h1 : ((JsValue.obj [("image_id", v), ("comment", w)]).getField
      "image_id").truthy = true := hv
  have h2 : ((JsValue.obj [("image_id", v), ("comment", w)]).getField
      "comment").truthy = true := hw
  refine ⟨⟨.createComment, saveVariables v w ts (mkHandle v nowMs)⟩, ?_, rfl⟩
  simp [saveHandler, h1, h2]
  rfl

theorem c10_truthiness_validation_witness :
    (saveHandler (.obj [("image_id", .num 0), ("comment", .str "ok")]) "t0" 5 .noResponse
      = ([], ⟨400, .obj [("error",
          .str "Missing image_id or comment in request body.")]⟩)) ∧
    (saveHandler (.obj [("image_id", .bool false), ("comment", .str "ok")]) "t0" 5 .noResponse
      = ([], ⟨400, .obj [("error",
          .str "Missing image_id or comment in request body.")]⟩)) ∧
    (saveHandler (.obj [("image_id", .str "42"), ("comment", .str "")]) "t0" 5 .noResponse
      = ([], ⟨400, .obj [("error",
          .str "Missing image_id or comment in request body.")]⟩)) ∧
    (∃ c : RemoteCall,
        (saveHandler (.obj [("image_id", .arr [.num 7]), ("comment", .obj [])])
          "t0" 5 .noResponse).1 = [c] ∧
        c.vars.optChain ["metaobject", "fields"]
          = .arr [
              .obj [("key", .str "image_id"), ("value", .str "7")],
              .obj [("key", .str "comment_text"), ("value", .obj [])],
              .obj [("key", .str "timestamp"), ("value", .str "t0")]]) := by
  obtain ⟨a, b, c, d⟩ := c10_truthiness_validation (.arr [.num 7]) (.obj [])
    "t0" 5 .noResponse
  exact ⟨a, b, c, d (by decide) (by decide)⟩

theorem saveSuccess_hasKey (d : JsValue) :
    (saveSuccess d).body.hasKey "error" = true
      ∨ (saveSuccess d).body.hasKey "success" = true := by
  cases h1 : (d.optChain ["data", "metaobjectCreate", "userErrors"]).truthy with
  | true =>
    cases h2 : lengthGtZero (d.optChain ["data", "metaobjectCreate", "userErrors"]) with
    | true => left; simp [saveSuccess, h1, h2, JsValue.hasKey]
    | false =>
      cases hnul : d.isNullish with
      | true => left; simp [saveSuccess, h1, h2, hnul, throwResp, JsValue.hasKey]
      | false =>
        cases herr : (d.getField "errors").truthy with
        | true => left; simp [saveSuccess, h1, h2, hnul, herr, JsValue.hasKey]
        | false =>
          cases hmo : (d.optChain ["data", "metaobjectCreate", "metaobject"]).truthy with
          | false => left; simp [saveSuccess, h1, h2, hnul, herr, hmo, JsValue.hasKey]
          | true => right; simp [saveSuccess, h1, h2, hnul, herr, hmo, JsValue.hasKey]
  | false =>
    cases hnul : d.isNullish with
    | true => left; simp [saveSuccess, h1, hnul, throwResp, JsValue.hasKey]
    | false =>
      cases herr : (d.getField "errors").truthy with
      | true => left; simp [saveSuccess, h1, hnul, herr, JsValue.hasKey]
      | false =>
        cases hmo : (d.optChain ["data", "metaobjectCreate", "metaobject"]).truthy with
        | false => left; simp [saveSuccess, h1, hnul, herr, hmo, JsValue.hasKey]
        | true => right; simp [saveSuccess, h1, hnul, herr, hmo, JsValue.hasKey]

theorem getSuccess_hasKey (d : JsValue) :
    (getSuccess d).body.hasKey "error" = true
      ∨ (getSuccess d).body.hasKey "comments" = true := by
  cases hnul : d.isNullish with
  | true => left; simp [getSuccess, hnul, throwResp, JsValue.hasKey]
  | false =>
    cases herr : (d.getField "errors").truthy with
    | true =>
      left
      cases he : d.getField "errors" with
      | arr es =>
        have ht : (JsValue.arr es).truthy = true := rfl
        cases hsf : someFilterMsg es with
        | none => simp [getSuccess, hnul, he, ht, hsf, throwResp, JsValue.hasKey]
        | some b =>
          cases b <;> simp [getSuccess, hnul, he, ht, hsf, JsValue.hasKey]
      | null => rw [he] at herr; simp [JsValue.truthy] at herr
      | undefined => rw [he] at herr; simp [JsValue.truthy] at herr
      | bool b =>
        rw [he] at herr
        simp [getSuccess, hnul, he, herr, throwResp, JsValue.hasKey]
      | num n =>
        rw [he] at herr
        simp [getSuccess, hnul, he, herr, throwResp, JsValue.hasKey]
      | str s =>
        rw [he] at herr
        simp [getSuccess, hnul, he, herr, throwResp, JsValue.hasKey]
      | obj fs =>
        have ht : (JsValue.obj fs).truthy = true := rfl
        simp [getSuccess, hnul, he, ht, throwResp, JsValue.hasKey]
    | false =>
      cases hn : (d.optChain ["data", "metaobjects", "nodes"]).truthy with
      | false =>
        right
        simp [getSuccess, hnul, herr, hn, commentsOfNodes, mapNodesComments,
              JsValue.hasKey]
      | true =>
        cases hns : d.optChain ["data", "metaobjects", "nodes"] with
        | arr l =>
          have ht : (JsValue.arr l).truthy = true := rfl
          cases hc : commentsOfNodes l with
          | some cs =>
            right
            simp [getSuccess, hnul, herr, hn, hns, ht, hc, JsValue.hasKey]
          | none =>
            left
            simp [getSuccess, hnul, herr, hn, hns, ht, hc, throwResp, JsValue.hasKey]
        | null => rw [hns] at hn; simp [JsValue.truthy] at hn
        | undefined => rw [hns] at hn; simp [JsValue.truthy] at hn
        | bool b =>
          rw [hns] at hn
          left
          simp [getSuccess, hnul, herr, hn, hns, throwResp, JsValue.hasKey]
        | num n =>
          rw [hns] at hn
          left
          simp [getSuccess, hnul, herr, hn, hns, throwResp, JsValue.hasKey]
        | str st =>
          rw [hns] at hn
          left
          simp [getSuccess, hnul, herr, hn, hns, throwResp, JsValue.hasKey]
        | obj fs =>
          have ht : (JsValue.obj fs).truthy = true := rfl
          left
          simp [getSuccess, hnul, herr, hn, hns, ht, throwResp, JsValue.hasKey]

/-- C4: a transport failure of the outbound call (promise rejected with
`err.request` but no response) on either operation is answered 500 with
the fixed generic JSON error message and no remote details; moreover on
either operation, every response the relay sends is either the success
envelope (a body with a success or comments key) or a JSON error payload
(a body with an error key), with a status code always present. -/
theorem c4_transport_failure_and_error_paths
    (body idv : JsValue) (ts : String) (nowMs : Nat) (remote : RemoteOutcome)
    (h1 : (body.getField "image_id").truthy = true)
    (h2 : (body.getField "comment").truthy = true)
    (hid : idv.truthy = true) :
    ((saveHandler body ts nowMs .noResponse).2
      = ⟨500, .obj [("error",
          .str "Internal Server Error: No response from Shopify API.")]⟩) ∧
    ((getHandler idv .noResponse).2
      = ⟨500, .obj [("error",
          .str "Internal Server Error: No response from Shopify API.")]⟩) ∧
    ((saveHandler body ts nowMs remote).2.body.hasKey "error" = true ∨
      (saveHandler body ts nowMs remote).2.body.hasKey "success" = true) ∧
    ((getHandler idv remote).2.body.hasKey "error" = true ∨
      (getHandler idv remote).2.body.hasKey "comments" = true) := by
  refine ⟨by simp [saveHandler, h1, h2], by simp [getHandler, hid], ?_, ?_⟩
  · cases remote with
    | success d => simpa [saveHandler, h1, h2] using saveSuccess_hasKey d
    | remoteError st d2 => simp [saveHandler, h1, h2, JsValue.hasKey]
    | noResponse => simp [saveHandler, h1, h2, JsValue.hasKey]
    | setupError m => simp [saveHandler, h1, h2, JsValue.hasKey]
  · cases remote with
    | success d => simpa [getHandler, hid] using getSuccess_hasKey d
    | remoteError st d2 => simp [getHandler, hid, JsValue.hasKey]
    | noResponse => simp [getHandler, hid, JsValue.hasKey]
    | setupError m => simp [getHandler, hid, JsValue.hasKey]

theorem c4_transport_failure_and_error_paths_witness :
    ((saveHandler (.obj [("image_id", .str "42"), ("comment", .str "hi")])
        "t0" 5 .noResponse).2
      = ⟨500, .obj [("error",
          .str "Internal Server Error: No response from Shopify API.")]⟩) ∧
    ((getHandler (.str "42") .noResponse).2
      = ⟨500, .obj [("error",
          .str "Internal Server Error: No response from Shopify API.")]⟩) ∧
    ((saveHandler (.obj [("image_id", .str "42"), ("comment", .str "hi")])
        "t0" 5 .noResponse).2.body.hasKey "error" = true ∨
      (saveHandler (.obj [("image_id", .str "42"), ("comment", .str "hi")])
        "t0" 5 .noResponse).2.body.hasKey "success" = true) ∧
    ((getHandler (.str "42") .noResponse).2.body.hasKey "error" = true ∨
      (getHandler (.str "42") .noResponse).2.body.hasKey "comments" = true) :=
  c4_transport_failure_and_error_paths
    (.obj [("image_id", .str "42"), ("comment", .str "hi")]) (.str "42")
    "t0" 5 .noResponse (by decide) (by decide) (by decide)

/-- C6 counterexample: on a remote 404 whose payload is the string
"gone", the relay answers 404 but its response body is a wrapper object,
not the remote payload itself, so the payload is not relayed verbatim as
the response body. -/
theorem c6_wrapped_payload_counterexample :
    ((saveHandler (.obj [("image_id", .str "42"), ("comment", .str "hi")])
        "t0" 5 (.remoteError 404 (.str "gone"))).2
      = ⟨404, .obj [("error", .str "Error communicating with Shopify API while saving."),
                    ("details", .str "gone")]⟩) ∧
    ((saveHandler (.obj [("image_id", .str "42"), ("comment", .str "hi")])
        "t0" 5 (.remoteError 404 (.str "gone"))).2.body ≠ .str "gone") := by
  constructor
  · decide
  · decide

/-- C6 amended: when the remote store responds with a non-success
(nonzero) HTTP status, the relay on either operation answers with that
same status, and the remote payload appears verbatim, but under the
details key of a JSON error object rather than as the whole response
body. -/
theorem c6_error_status_relayed_amended
    (body idv d : JsValue) (ts : String) (nowMs : Nat) (st : Nat)
    (h1 : (body.getField "image_id").truthy = true)
    (h2 : (body.getField "comment").truthy = true)
    (hid : idv.truthy = true)
    (hst : st ≠ 0) :
    ((saveHandler body ts nowMs (.remoteError st d)).2
      = ⟨st, .obj [("error", .str "Error communicating with Shopify API while saving."),
                   ("details", d)]⟩) ∧
    ((getHandler idv (.remoteError st d)).2
      = ⟨st, .obj [("error", .str "Error communicating with Shopify API while fetching."),
                   ("details", d)]⟩) := by
  constructor
  · simp [saveHandler, h1, h2, hst]
  · simp [getHandler, hid, hst]

theorem c6_error_status_relayed_amended_witness :
    ((saveHandler (.obj [("image_id", .str "42"), ("comment", .str "hi")])
        "t0" 5 (.remoteError 503 (.str "down"))).2
      = ⟨503, .obj [("error", .str "Error communicating with Shopify API while saving."),
                    ("details", .str "down")]⟩) ∧
    ((getHandler (.str "42") (.remoteError 503 (.str "down"))).2
      = ⟨503, .obj [("error", .str "Error communicating with Shopify API while fetching."),
                    ("details", .str "down")]⟩) :=
  c6_error_status_relayed_amended
    (.obj [("image_id", .str "42"), ("comment", .str "hi")]) (.str "42")
    (.str "down") "t0" 5 503 (by decide) (by decide) (by decide) (by decide)

/-- C5 counterexample: a retrieval whose remote call succeeds but whose
response carries no records container at all (an empty object) is
answered 200 with an empty comments array, not a server-error status, so
the claim fails for the retrieval operation. -/
theorem c5_get_missing_container_counterexample :
    ((getHandler (.str "42") (.success (.obj []))).2
      = ⟨200, .obj [("comments", .arr [])]⟩) ∧
    ((getHandler (.str "42") (.success (.obj []))).2.status < 500) := by
  constructor
  · decide
  · decide

/-- C5 amended: on submit, a transport-successful response whose
created-record confirmation is structurally absent (no userErrors, no
top-level errors, but no metaobject either) is answered 500; on
retrieval, an absent records container is instead defaulted to the empty
list and answered 200 with an empty comments array. -/
theorem c5_contract_violation_amended
    (body idv d : JsValue) (ts : String) (nowMs : Nat)
    (h1 : (body.getField "image_id").truthy = true)
    (h2 : (body.getField "comment").truthy = true)
    (hid : idv.truthy = true) :
    ((d.optChain ["data", "metaobjectCreate", "userErrors"]).truthy = false →
      d.isNullish = false →
      (d.getField "errors").truthy = false →
      (d.optChain ["data", "metaobjectCreate", "metaobject"]).truthy = false →
      (saveHandler body ts nowMs (.success d)).2
        = ⟨500, .obj [("error",
            .str "Internal Server Error: Unexpected response structure after saving comment.")]⟩) ∧
    (d.isNullish = false →
      (d.getField "errors").truthy = false →
      d.optChain ["data", "metaobjects", "nodes"] = .undefined →
      (getHandler idv (.success d)).2 = ⟨200, .obj [("comments", .arr [])]⟩) := by
  constructor
  · intro hue hnn herr hmo
    simp [saveHandler, h1, h2, saveSuccess, hue, hnn, herr, hmo]
  · intro hnn herr hnodes
    have hu : (JsValue.undefined).truthy = false := rfl
    simp [getHandler, hid, getSuccess, hnn, herr, hnodes, hu,
          commentsOfNodes, mapNodesComments]

theorem c5_contract_violation_amended_witness :
    ((saveHandler (.obj [("image_id", .str "42"), ("comment", .str "hi")])
        "t0" 5 (.success (.obj []))).2
      = ⟨500, .obj [("error",
          .str "Internal Server Error: Unexpected response structure after saving comment.")]⟩) ∧
    ((getHandler (.str "42") (.success (.obj []))).2
      = ⟨200, .obj [("comments", .arr [])]⟩) := by
  obtain ⟨hs, hg⟩ := c5_contract_violation_amended
    (.obj [("image_id", .str "42"), ("comment", .str "hi")]) (.str "42")
    (.obj []) "t0" 5 (by decide) (by decide) (by decide)
  exact ⟨hs (by decide) (by decide) (by decide) (by decide),
         hg (by decide) (by decide) (by decide)⟩

/-- C7: when the remote response reports field-level validation errors
(a non-empty userErrors list) or request-level GraphQL errors (a truthy
errors value; for the GET handler, the errors array on which the
filter-message scan does not throw), the relay answers 400 and its
payload carries the remote error details unmodified under the details
key. -/
theorem c7_remote_errors_client_error
    (body idv d : JsValue) (ts : String) (nowMs : Nat)
    (us es : List JsValue) (b : Bool)
    (h1 : (body.getField "image_id").truthy = true)
    (h2 : (body.getField "comment").truthy = true)
    (hid : idv.truthy = true) :
    ((d.optChain ["data", "metaobjectCreate", "userErrors"] = .arr us → us ≠ [] →
      (saveHandler body ts nowMs (.success d)).2
        = ⟨400, .obj [("error", .str "Failed to save comment due to validation errors."),
                      ("details", .arr us)]⟩)) ∧
    (((d.optChain ["data", "metaobjectCreate", "userErrors"]).truthy = false →
      d.isNullish = false →
      (d.getField "errors").truthy = true →
      (saveHandler body ts nowMs (.success d)).2
        = ⟨400, .obj [("error", .str "Failed to save comment due to GraphQL errors."),
                      ("details", d.getField "errors")]⟩)) ∧
    ((d.isNullish = false → d.getField "errors" = .arr es →
      someFilterMsg es = some b →
      (getHandler idv (.success d)).2.status = 400 ∧
      (getHandler idv (.success d)).2.body.getField "details" = .arr es)) := by
  refine ⟨?_, ?_, ?_⟩
  · intro hue hne
    have hlen : 0 < us.length := List.length_pos.mpr hne
    have ht : (JsValue.arr us).truthy = true := rfl
    have hgt : lengthGtZero (.arr us) = true := by simp [lengthGtZero, hlen]
    simp [saveHandler, h1, h2, saveSuccess, hue, ht, hgt]
  · intro hue hnn herr
    simp [saveHandler, h1, h2, saveSuccess, hue, hnn, herr]
  · intro hnn herrs hsf
    have ht : (JsValue.arr es).truthy = true := rfl
    cases b with
    | false =>
      have hresp : (getHandler idv (.success d)).2
          = ⟨400, .obj [("error", .str "Failed to get comments due to GraphQL errors."),
                        ("details", .arr es)]⟩ := by
        simp [getHandler, hid, getSuccess, hnn, herrs, ht, hsf]
      rw [hresp]
      exact ⟨rfl, rfl⟩
    | true =>
      have hresp : (getHandler idv (.success d)).2
          = ⟨400, .obj [("error", .str "Failed to get comments: Filtering not enabled for image_id."),
                        ("details", .arr es)]⟩ := by
        simp [getHandler, hid, getSuccess, hnn, herrs, ht, hsf]
      rw [hresp]
      exact ⟨rfl, rfl⟩

theorem c7_remote_errors_client_error_witness :
    ((saveHandler (.obj [("image_id", .str "42"), ("comment", .str "hi")]) "t0" 5
        (.success (.obj [("data", .obj [("metaobjectCreate", .obj [("userErrors",
          .arr [.obj [("message", .str "bad value")]])])])]))).2
      = ⟨400, .obj [("error", .str "Failed to save comment due to validation errors."),
                    ("details", .arr [.obj [("message", .str "bad value")]])]⟩) ∧
    ((saveHandler (.obj [("image_id", .str "42"), ("comment", .str "hi")]) "t0" 5
        (.success (.obj [("errors", .arr [.obj [("message", .str "oops")]])]))).2
      = ⟨400, .obj [("error", .str "Failed to save comment due to GraphQL errors."),
                    ("details", .arr [.obj [("message", .str "oops")]])]⟩) ∧
    ((getHandler (.str "42")
        (.success (.obj [("errors", .arr [.obj [("message", .str "oops")]])]))).2.status
      = 400 ∧
     (getHandler (.str "42")
        (.success (.obj [("errors", .arr [.obj [("message", .str "oops")]])]))).2.body.getField
          "details"
      = .arr [.obj [("message", .str "oops")]]) := by
  refine ⟨?_, ?_, ?_⟩
  · exact (c7_remote_errors_client_error
      (.obj [("image_id", .str "42"), ("comment", .str "hi")]) (.str "42")
      (.obj [("data", .obj [("metaobjectCreate", .obj [("userErrors",
        .arr [.obj [("message", .str "bad value")]])])])]) "t0" 5
      [.obj [("message", .str "bad value")]] [] false
      (by decide) (by decide) (by decide)).1 (by decide) (by decide)
  · exact (c7_remote_errors_client_error
      (.obj [("image_id", .str "42"), ("comment", .str "hi")]) (.str "42")
      (.obj [("errors", .arr [.obj [("message", .str "oops")]])]) "t0" 5
      [] [.obj [("message", .str "oops")]] false
      (by decide) (by decide) (by decide)).2.1 (by decide) (by decide) (by decide)
  · exact (c7_remote_errors_client_error
      (.obj [("image_id", .str "42"), ("comment", .str "hi")]) (.str "42")
      (.obj [("errors", .arr [.obj [("message", .str "oops")]])]) "t0" 5
      [] [.obj [("message", .str "oops")]] false
      (by decide) (by decide) (by decide)).2.2 (by decide) (by decide) (by decide)

/-- C2 counterexample: a retrieval response with N = 2 matching records,
M = 2 of which contain a field with key comment_text, but one of the two
with a null value for it, yields a comments sequence with a single
entry, not M = 2 entries: the null-valued record is silently dropped by
the null filter. -/
theorem c2_null_valued_field_counterexample :
    ((getHandler (.str "42") (.success (.obj [("data", .obj [("metaobjects", .obj [("nodes",
        .arr [
          .obj [("id", .str "g1"), ("fields", .arr [.obj [("key", .str "comment_text"),
            ("value", .str "Nice photo!")]])],
          .obj [("id", .str "g2"), ("fields", .arr [.obj [("key", .str "comment_text"),
            ("value", .null)]])]])])])]))).2
      = ⟨200, .obj [("comments", .arr [.str "Nice photo!"])]⟩) ∧
    (countCommentRecords [
        .obj [("id", .str "g1"), ("fields", .arr [.obj [("key", .str "comment_text"),
          ("value", .str "Nice photo!")]])],
        .obj [("id", .str "g2"), ("fields", .arr [.obj [("key", .str "comment_text"),
          ("value", .null)]])]] = 2) := by
  constructor
  · decide
  · decide

/-- C2 amended: for a retrieval whose remote response has no errors and
carries a records container of well-formed records, the relay answers
200 with the comments sequence holding, in the order the records were
returned, exactly the value of the first comment_text field of each
record whose value there is non-null; records whose comment_text field
is missing or null-valued are silently excluded, and no entry of the
sequence is null. -/
theorem c2_comments_mapping_amended
    (idv d : JsValue) (nodes : List JsValue)
    (hid : idv.truthy = true)
    (hnn : d.isNullish = false)
    (herr : (d.getField "errors").truthy = false)
    (hnodes : d.optChain ["data", "metaobjects", "nodes"] = .arr nodes)
    (hw : ∀ n ∈ nodes, wellFormedNode n = true) :
    ((getHandler idv (.success d)).2
      = ⟨200, .obj [("comments", .arr (specComments nodes))]⟩) ∧
    (∀ c ∈ specComments nodes, c.isNull = false) := by
  refine ⟨?_, specComments_not_null nodes⟩
  have ht : (JsValue.arr nodes).truthy = true := rfl
  simp [getHandler, hid, getSuccess, hnn, herr, hnodes, ht,
        commentsOfNodes_wf nodes hw]

theorem c2_comments_mapping_amended_witness :
    ((getHandler (.str "42") (.success (.obj [("data", .obj [("metaobjects", .obj [("nodes",
        .arr [
          .obj [("id", .str "g1"), ("fields", .arr [.obj [("key", .str "comment_text"),
            ("value", .str "Nice photo!")]])],
          .obj [("id", .str "g2"), ("fields", .arr [.obj [("key", .str "other"),
            ("value", .str "x")]])]])])])]))).2
      = ⟨200, .obj [("comments", .arr (specComments [
          .obj [("id", .str "g1"), ("fields", .arr [.obj [("key", .str "comment_text"),
            ("value", .str "Nice photo!")]])],
          .obj [("id", .str "g2"), ("fields", .arr [.obj [("key", .str "other"),
            ("value", .str "x")]])]]))]⟩) ∧
    (∀ c ∈ specComments [
        .obj [("id", .str "g1"), ("fields", .arr [.obj [("key", .str "comment_text"),
          ("value", .str "Nice photo!")]])],
        .obj [("id", .str "g2"), ("fields", .arr [.obj [("key", .str "other"),
          ("value", .str "x")]])]], c.isNull = false) :=
  c2_comments_mapping_amended (.str "42")
    (.obj [("data", .obj [("metaobjects", .obj [("nodes",
        .arr [
          .obj [("id", .str "g1"), ("fields", .arr [.obj [("key", .str "comment_text"),
            ("value", .str "Nice photo!")]])],
          .obj [("id", .str "g2"), ("fields", .arr [.obj [("key", .str "other"),
            ("value", .str "x")]])]])])])])
    [.obj [("id", .str "g1"), ("fields", .arr [.obj [("key", .str "comment_text"),
        ("value", .str "Nice photo!")]])],
     .obj [("id", .str "g2"), ("fields", .arr [.obj [("key", .str "other"),
        ("value", .str "x")]])]]
    (by decide) (by decide) (by decide) (by decide) (by decide)

/-- C8 counterexample: two distinct submissions (their request bodies
differ) processed at the same millisecond produce the same handle
comment-42-1700000000000 in their creation requests, so sequential
single-process submissions alone do not guarantee distinct handles: the
guarantee needs distinct Date.now() readings. -/
theorem c8_same_millisecond_collision_counterexample :
    (((saveHandler (.obj [("image_id", .str "42"), ("comment", .str "first")])
        "t1" 1700000000000 .noResponse).1.map
          (fun c => c.vars.optChain ["metaobject", "handle"]))
      = [.str "comment-42-1700000000000"]) ∧
    (((saveHandler (.obj [("image_id", .str "42"), ("comment", .str "second")])
        "t2" 1700000000000 .noResponse).1.map
          (fun c => c.vars.optChain ["metaobject", "handle"]))
      = [.str "comment-42-1700000000000"]) ∧
    ((JsValue.obj [("image_id", .str "42"), ("comment", .str "first")])
      ≠ (JsValue.obj [("image_id", .str "42"), ("comment", .str "second")])) := by
  refine ⟨?_, ?_, ?_⟩
  · decide
  · decide
  · decide

/-- C8 amended: the handle of every accepted submission is derived from
the image_id and the current time as comment-(image_id)-(Date.now()),
and two submissions whose Date.now() readings differ (in particular
sequential submissions at distinct milliseconds) always produce distinct
handles, whatever their image_ids. -/
theorem c8_handle_unique_amended
    (b1 b2 : JsValue) (ts1 ts2 : String) (n1 n2 : Nat) (r1 r2 : RemoteOutcome)
    (h11 : (b1.getField "image_id").truthy = true)
    (h12 : (b1.getField "comment").truthy = true)
    (h21 : (b2.getField "image_id").truthy = true)
    (h22 : (b2.getField "comment").truthy = true)
    (hn : n1 ≠ n2) :
    (((saveHandler b1 ts1 n1 r1).1.map
        (fun c => c.vars.optChain ["metaobject", "handle"]))
      = [.str (mkHandle (b1.getField "image_id") n1)]) ∧
    (((saveHandler b1 ts1 n1 r1).1.map
        (fun c => c.vars.optChain ["metaobject", "handle"]))
      ≠ ((saveHandler b2 ts2 n2 r2).1.map
        (fun c => c.vars.optChain ["metaobject", "handle"]))) := by
  have hopt : ∀ (i c : JsValue) (ts h : String),
      (saveVariables i c ts h).optChain ["metaobject", "handle"] = .str h :=
    fun _ _ _ _ => rfl
  have e1 : ((saveHandler b1 ts1 n1 r1).1.map
      (fun c => c.vars.optChain ["metaobject", "handle"]))
      = [.str (mkHandle (b1.getField "image_id") n1)] := by
    simp [saveHandler, h11, h12, hopt]
  have e2 : ((saveHandler b2 ts2 n2 r2).1.map
      (fun c => c.vars.optChain ["metaobject", "handle"]))
      = [.str (mkHandle (b2.getField "image_id") n2)] := by
    simp [saveHandler, h21, h22, hopt]
  refine ⟨e1, ?_⟩
  rw [e1, e2]
  intro hcontra
  simp only [List.cons.injEq, and_true, JsValue.str.injEq] at hcontra
  exact hn (mkHandle_now_inj hcontra)

theorem c8_handle_unique_amended_witness :
    (((saveHandler (.obj [("image_id", .str "42"), ("comment", .str "first")])
        "t1" 1700000000000 .noResponse).1.map
          (fun c => c.vars.optChain ["metaobject", "handle"]))
      = [.str (mkHandle (.str "42") 1700000000000)]) ∧
    (((saveHandler (.obj [("image_id", .str "42"), ("comment", .str "first")])
        "t1" 1700000000000 .noResponse).1.map
          (fun c => c.vars.optChain ["metaobject", "handle"]))
      ≠ ((saveHandler (.obj [("image_id", .str "42"), ("comment", .str "second")])
        "t2" 1700000000001 .noResponse).1.map
          (fun c => c.vars.optChain ["metaobject", "handle"]))) :=
  c8_handle_unique_amended
    (.obj [("image_id", .str "42"), ("comment", .str "first")])
    (.obj [("image_id", .str "42"), ("comment", .str "second")])
    "t1" "t2" 1700000000000 1700000000001 .noResponse .noResponse
    (by decide) (by decide) (by decide) (by decide) (by decide)

/-- C9: for every retrieval with truthy image_id, the one outbound call
carries the filterQuery variable built by splicing the caller-supplied
image_id, coerced to a string, verbatim and unescaped between two single
quotes after image_id and a colon; and an input containing a single
quote (here one of quote count 1) yields a filter expression that no
quote-free value would produce, i.e. the quote alters the structure of
the filter expression. -/
theorem c9_filter_interpolation
    (idv : JsValue) (s w : String) (remote : RemoteOutcome)
    (hid : idv.truthy = true)
    (hw : quoteCount w = 0) :
    ((getHandler idv remote).1
      = [⟨.fetchComments, .obj [("filterQuery", .str (filterQueryOf idv))]⟩]) ∧
    (filterQueryOf (.str s)
      = "image_id:" ++ String.mk [quoteChar] ++ s ++ String.mk [quoteChar]) ∧
    (quoteCount s = 1 →
      filterQueryOf (.str s)
        ≠ "image_id:" ++ String.mk [quoteChar] ++ w ++ String.mk [quoteChar]) := by
  refine ⟨by simp [getHandler, hid], rfl, ?_⟩
  intro hs hcontra
  have hcount := congrArg quoteCount hcontra
  rw [filterQueryOf_quoteCount] at hcount
  have ha : quoteCount "image_id:" = 0 := by decide
  have hb : quoteCount (String.mk [quoteChar]) = 1 := by decide
  have h2 : quoteCount ("image_id:" ++ String.mk [quoteChar] ++ w ++ String.mk [quoteChar])
      = 2 := by
    rw [quoteCount_append, quoteCount_append, quoteCount_append, ha, hb, hw]
  rw [h2, hs] at hcount
  omega

theorem c9_filter_interpolation_witness :
    ((getHandler (.str "42") .noResponse).1
      = [⟨.fetchComments, .obj [("filterQuery", .str (filterQueryOf (.str "42")))]⟩]) ∧
    (filterQueryOf (.str ("a" ++ String.mk [quoteChar] ++ "b"))
      = "image_id:" ++ String.mk [quoteChar] ++ ("a" ++ String.mk [quoteChar] ++ "b")
        ++ String.mk [quoteChar]) ∧
    (filterQueryOf (.str ("a" ++ String.mk [quoteChar] ++ "b"))
      ≠ "image_id:" ++ String.mk [quoteChar] ++ "42" ++ String.mk [quoteChar]) := by
  obtain ⟨ha, hb, hc⟩ := c9_filter_interpolation (.str "42")
    ("a" ++ String.mk [quoteChar] ++ "b") "42" .noResponse (by decide) (by decide)
  exact ⟨ha, hb, hc (by decide)⟩
